import Mathlib

/-!
# NetworksDB adapter (Amass `datasrcs/networksdb.go`) — shallow embedding

This file embeds the NetworksDB data-source adapter and the `healASInfo`
orchestrator of the repository in Lean 4 and proves the specification
claims about them.

Modelling conventions:

* Go `stringset.Set` (not under `src/`) is modelled from the spec (§3
  "CIDR Set": deduplicated string collection, membership keyed by exact
  string value).  We represent it as a `List String` with dedup insert;
  the list order stands for one iteration order of the Go map.  All
  properties proved about it are order-insensitive (membership level) or
  quantify over every list, hence over every possible iteration order.
* HTTP pages are represented by the results of the regular-expression
  extractions the adapter performs on them (the HTML wire format is out
  of scope per spec §1); a fetch oracle maps a URL to `none` (transport
  error) or to the extraction results.  API endpoints return the decoded
  JSON structure (or a transport / unmarshal error), mirroring the
  `json.Unmarshal` target structs in the source.
* `net.ParseIP` / `net.ParseCIDR` / `IPNet.Contains` are embedded for
  IPv4 (dotted quad, prefix length 0–32); IPv6 forms are treated as
  parse failures.  Go's `Contains` masks the address with the network
  mask and compares with the masked base address.
* Side effects (rate-limiter waits, `SetActiveTopic` publications,
  outbound fetches, `LogTopic` publications, `NewASNTopic` publications)
  are reified as an event list returned by each embedded function, in
  program order.  The Go field `Prefix` of `requests.ASNRequest` is
  named `pfx` here.
-/

/-- Model of `stringset.Set` (spec §3): a deduplicated collection of
strings.  Modelled from the spec: the Go package is not under `src/`.
The list order represents one iteration order of the underlying map. -/
abbrev StrSet := List String

/-- `Set.Insert`: duplicate inserts are no-ops. -/
def StrSet.insert (s : StrSet) (x : String) : StrSet :=
  if x ∈ s then s else s ++ [x]

/-- `Set.Union`: insert every member of `t` into `s`. -/
def StrSet.union (s t : StrSet) : StrSet :=
  t.foldl StrSet.insert s

/-- `Set.Slice`: the members as a list (one possible order). -/
def StrSet.slice (s : StrSet) : List String := s

/-- `len` of a set. -/
def StrSet.size (s : StrSet) : Nat := s.length

def StrSet.empty : StrSet := []

/-- The value of a digit string (used below only on all-digit lists). -/
def digitsToNat (cs : List Char) : Nat :=
  cs.foldl (fun n c => n * 10 + (c.toNat - '0'.toNat)) 0

/-- Split a character list at every occurrence of `sep` (the
kernel-computable core of `strings.Split` for a one-character
separator, as used by the dotted-quad and CIDR grammars). -/
def splitOnChar (sep : Char) : List Char → List (List Char)
  | [] => [[]]
  | c :: rest =>
    let r := splitOnChar sep rest
    if c = sep then [] :: r
    else
      match r with
      | [] => [[c]]
      | h :: t => (c :: h) :: t

/-- One decimal field of a dotted quad, as accepted by Go `net.ParseIP`:
a non-empty digit string whose value is at most 255. -/
def parseOctet (cs : List Char) : Option Nat :=
  if cs.isEmpty then none
  else if cs.all Char.isDigit then
    let v := digitsToNat cs
    if v ≤ 255 then some v else none
  else none

/-- IPv4 fragment of Go `net.ParseIP`: exactly four octet fields, the
result as a 32-bit value (a `Nat` below `2^32`).  IPv6 and other forms
are parse failures (`none`, Go `nil`). -/
def parseIPv4 (s : String) : Option Nat :=
  match splitOnChar '.' s.data with
  | [a, b, c, d] =>
    match parseOctet a, parseOctet b, parseOctet c, parseOctet d with
    | some x, some y, some z, some w => some (((x * 256 + y) * 256 + z) * 256 + w)
    | _, _, _, _ => none
  | _ => none

/-- The mask-length field of a CIDR, as accepted by Go `net.ParseCIDR`
for IPv4: a non-empty digit string whose value is at most 32. -/
def parseMaskLen (cs : List Char) : Option Nat :=
  if cs.isEmpty then none
  else if cs.all Char.isDigit then
    let v := digitsToNat cs
    if v ≤ 32 then some v else none
  else none

/-- IPv4 fragment of Go `net.ParseCIDR`: `addr/len`, returning the
masked base address together with the mask length (the `*net.IPNet`). -/
def parseCIDR (s : String) : Option (Nat × Nat) :=
  match splitOnChar '/' s.data with
  | [ipstr, lenstr] =>
    match parseIPv4 (String.mk ipstr), parseMaskLen lenstr with
    | some ip, some l => some (ip - ip % 2 ^ (32 - l), l)
    | _, _ => none
  | _ => none

/-- Go `(*net.IPNet).Contains`: mask the address and compare with the
network's masked base address. -/
def cidrContains (c : Nat × Nat) (ip : Nat) : Bool :=
  ip - ip % 2 ^ (32 - c.2) = c.1

/-- ASCII whitespace, the relevant fragment of `unicode.IsSpace`. -/
def isSpaceChar (c : Char) : Bool :=
  c = ' ' ∨ c = '\t' ∨ c = '\n' ∨ c = '\r'

/-- Go `strings.TrimSpace`: drop whitespace from both ends. -/
def trimStr (s : String) : String :=
  String.mk (((s.data.dropWhile isSpaceChar).reverse.dropWhile isSpaceChar).reverse)

/-- Go `strconv.Atoi`: optional sign, then one or more digits, value
within the 64-bit `int` range. -/
def atoi (s : String) : Option Int :=
  let core (ds : List Char) (sign : Int) : Option Int :=
    if ds.isEmpty then none
    else if ds.all Char.isDigit then
      let v := digitsToNat ds
      if v ≤ 2 ^ 63 - 1 ∨ (sign = -1 ∧ v ≤ 2 ^ 63) then some (sign * (v : Int)) else none
    else none
  match s.data with
  | '-' :: rest => core rest (-1)
  | '+' :: rest => core rest 1
  | ds => core ds 1

/-- `requests.ASNRequest` (the ownership record), with Go zero values
as defaults.  The Go field `Prefix` is named `pfx`. -/
structure ASNRequest where
  Address : String := ""
  ASN : Int := 0
  pfx : String := ""
  CC : String := ""
  Description : String := ""
  Netblocks : StrSet := StrSet.empty
  Tag : String := ""
  Source : String := ""
deriving DecidableEq, Repr

/-- Reified side effects of one adapter call, in program order. -/
inductive Ev
  /-- `n.CheckRateLimit()` — a rate-limiter wait. -/
  | rateWait
  /-- `bus.Publish(requests.SetActiveTopic, …)`. -/
  | setActive
  /-- `bus.Publish(requests.LogTopic, …, msg)`. -/
  | log (msg : String)
  /-- an outbound `http.RequestWebPage` to the given URL. -/
  | fetch (u : String)
  /-- `bus.Publish(requests.NewASNTopic, …, r)` — the record publication. -/
  | newASN (r : ASNRequest)
deriving DecidableEq, Repr

/-- The outcome of one resolution attempt. -/
inductive Outcome
  /-- the guard `req.Address == "" && req.ASN == 0` returned at once. -/
  | rejected
  /-- a record was published on the `NewASNTopic`. -/
  | published (r : ASNRequest)
  /-- a failure branch logged and returned early. -/
  | failed
  /-- a Go runtime panic (index out of range). -/
  | panicked
deriving DecidableEq, Repr

/-- The `NewASNTopic` records among an event list. -/
def pubRecords : List Ev → List ASNRequest
  | [] => []
  | Ev.newASN r :: es => r :: pubRecords es
  | _ :: es => pubRecords es

/-- The `LogTopic` messages among an event list. -/
def logMsgs : List Ev → List String
  | [] => []
  | Ev.log m :: es => m :: logMsgs es
  | _ :: es => logMsgs es

/-- `n.String()` — the service name from `NewBaseService(n, "NetworksDB")`. -/
def ndbName : String := "NetworksDB"

/-- `requests.SCRAPE`, the `SourceType` when no API key is configured.
Modelled from the spec: provenance tag of the scrape-derived variant. -/
def sourceTypeScrape : String := "scrape"

/-- `requests.API`, the `SourceType` when an API key is configured.
Modelled from the spec: provenance tag of the API-derived variant. -/
def sourceTypeAPI : String := "api"

def networksdbBaseURL : String := "https://networksdb.io"

def networksdbAPIPATH : String := "/api/v1"

def getIPURL (addr : String) : String := networksdbBaseURL ++ "/ip/" ++ addr

def getASNURL (asn : Int) : String :=
  networksdbBaseURL ++ "/autonomous-system/AS" ++ toString asn

def getAPIIPURL : String := networksdbBaseURL ++ networksdbAPIPATH ++ "/ip/info"

def getAPIOrgInfoURL : String := networksdbBaseURL ++ networksdbAPIPATH ++ "/org/info"

def getAPIASNInfoURL : String := networksdbBaseURL ++ networksdbAPIPATH ++ "/as/info"

def getAPINetblocksURL : String := networksdbBaseURL ++ networksdbAPIPATH ++ "/as/networks"

/-- The shared scan of `executeASNQuery` (lines 220–225) and
`executeAPIASNQuery` (lines 327–332): iterate the netblock members,
skip entries that fail `net.ParseCIDR`, and return the first member
whose block contains `ip`; `""` when no member does (also when the
queried address itself failed to parse, Go `Contains(nil) = false`). -/
def scanContains (nbs : List String) (ip : Option Nat) : String :=
  match nbs with
  | [] => ""
  | c :: rest =>
    match parseCIDR c, ip with
    | some b, some i => if cidrContains b i then c else scanContains rest ip
    | _, _ => scanContains rest ip

/-- A fetched HTML page, represented by the results of the
regular-expression extractions the adapter performs on it:
`asnLink` is the capture of `networksdbASNLinkRE`, `cidrs` the
captures of all `networksdbCIDRRE` matches in order, `asnStr` the
capture of `networksdbASNRE`, `asName` of `networksdbASNameRE`,
`cc` of `networksdbCCRE` (each `none` when the pattern does not
match the page). -/
structure ScrapePage where
  asnLink : Option String := none
  cidrs : List String := []
  asnStr : Option String := none
  asName : Option String := none
  cc : Option String := none
deriving DecidableEq, Repr

/-- Environment of the scrape-mode adapter: `http.RequestWebPage` per
URL; `none` is a transport error. -/
structure ScrapeEnv where
  fetch : String → Option ScrapePage

/-- `executeASNQuery` (lines 176–241): rate-limit, mark active, fetch
the AS page, extract AS name / country code / CIDR blocks, select the
published CIDR, and publish the record on the `NewASNTopic`. -/
def executeASNQuery (env : ScrapeEnv) (asn : Int) (addr : String)
    (netblocks : StrSet) : List Ev × Outcome :=
  let u := getASNURL asn
  let evs : List Ev := [Ev.rateWait, Ev.setActive, Ev.fetch u]
  match env.fetch u with
  | none => (evs ++ [Ev.log (ndbName ++ ": " ++ u ++ ": transport error")], .failed)
  | some page =>
    match page.asName with
    | none =>
      (evs ++ [Ev.log (ndbName ++ ": The regular expression failed to extract the AS name")],
       .failed)
    | some nm =>
      let name := trimStr nm
      match page.cc with
      | none =>
        (evs ++
          [Ev.log (ndbName ++ ": The regular expression failed to extract the country code")],
         .failed)
      | some c0 =>
        let cc := trimStr c0
        let nbs := page.cidrs.foldl (fun s m => StrSet.insert s (trimStr m)) netblocks
        let p1 := if addr ≠ "" then scanContains nbs (parseIPv4 addr) else ""
        -- `if prefix == "" && len(netblocks) > 0 { prefix = netblocks.Slice()[0] }`
        let p2 := if p1 = "" ∧ 0 < nbs.length then nbs.headD "" else p1
        let r : ASNRequest :=
          { Address := addr, ASN := asn, pfx := p2, CC := cc,
            Description := name ++ ", " ++ cc, Netblocks := nbs,
            Tag := sourceTypeScrape, Source := ndbName }
        (evs ++ [Ev.newASN r], .published r)

/-- `executeASNAddrQuery` (lines 115–170): fetch the per-address page,
extract the AS link, fetch the AS page, collect its CIDR blocks,
extract and parse the AS number, then delegate to `executeASNQuery`. -/
def executeASNAddrQuery (env : ScrapeEnv) (addr : String) : List Ev × Outcome :=
  let u := getIPURL addr
  match env.fetch u with
  | none => ([Ev.fetch u, Ev.log (ndbName ++ ": " ++ u ++ ": transport error")], .failed)
  | some page =>
    match page.asnLink with
    | none =>
      ([Ev.fetch u,
        Ev.log (ndbName ++ ": " ++ u ++ ": Failed to extract the autonomous system href")],
       .failed)
    | some link =>
      let u2 := networksdbBaseURL ++ link
      let evs := [Ev.fetch u, Ev.rateWait, Ev.setActive, Ev.fetch u2]
      match env.fetch u2 with
      | none => (evs ++ [Ev.log (ndbName ++ ": " ++ u2 ++ ": transport error")], .failed)
      | some page2 =>
        let nbs := page2.cidrs.foldl (fun s m => StrSet.insert s (trimStr m)) StrSet.empty
        match page2.asnStr with
        | none =>
          (evs ++
            [Ev.log (ndbName ++ ": " ++ u2 ++
              ": The regular expression failed to extract the ASN")],
           .failed)
        | some a =>
          match atoi (trimStr a) with
          | none =>
            (evs ++ [Ev.log (ndbName ++ ": " ++ u2 ++ ": Failed to extract a valid ASN")],
             .failed)
          | some asn =>
            let t := executeASNQuery env asn addr nbs
            (evs ++ t.1, t.2)

/-- The `json.Unmarshal` target of `apiIPQuery`: one result with an
organisation id and a network CIDR. -/
structure IPResult where
  orgID : String := ""
  networkCIDR : String := ""
deriving DecidableEq, Repr

structure IPInfoMsg where
  error : String := ""
  total : Int := 0
  results : List IPResult := []
deriving DecidableEq, Repr

/-- The `json.Unmarshal` target of `apiOrgInfoQuery`: one result with a
list of AS numbers. -/
structure OrgResult where
  asns : List Int := []
deriving DecidableEq, Repr

structure OrgInfoMsg where
  error : String := ""
  total : Int := 0
  results : List OrgResult := []
deriving DecidableEq, Repr

/-- The `json.Unmarshal` target of `apiNetblocksQuery`: results each
with a CIDR. -/
structure NetblockResult where
  cidr : String := ""
deriving DecidableEq, Repr

structure NetblocksMsg where
  error : String := ""
  total : Int := 0
  results : List NetblockResult := []
deriving DecidableEq, Repr

/-- The `json.Unmarshal` target of `apiASNInfoQuery`. -/
structure ASInfoResult where
  asn : Int := 0
  asName : String := ""
  description : String := ""
  countryCode : String := ""
  country : String := ""
deriving DecidableEq, Repr

structure ASInfoMsg where
  error : String := ""
  total : Int := 0
  results : List ASInfoResult := []
deriving DecidableEq, Repr

/-- Result of an authenticated API `http.RequestWebPage` plus
`json.Unmarshal`: a transport error, an unmarshal error, or the decoded
message. -/
inductive ApiResp (α : Type)
  | transport (msg : String)
  | badJSON (msg : String)
  | ok (m : α)
deriving DecidableEq, Repr

/-- Environment of the API-mode adapter: the decoded response of each
endpoint, keyed by the request parameter sent to it. -/
structure ApiEnv where
  ipInfo : String → ApiResp IPInfoMsg
  orgInfo : String → ApiResp OrgInfoMsg
  netblocks : Int → ApiResp NetblocksMsg
  asInfo : Int → ApiResp ASInfoMsg

/-- `apiIPQuery` (lines 357–401): POST to the ip-info endpoint, check
the error / zero-result markers, and return the first result's network
CIDR and organisation id (`("", "")` on every failure). -/
def apiIPQuery (env : ApiEnv) (addr : String) : List Ev × (String × String) :=
  let u := getAPIIPURL
  let evs : List Ev := [Ev.rateWait, Ev.setActive, Ev.fetch u]
  match env.ipInfo addr with
  | .transport e => (evs ++ [Ev.log (ndbName ++ ": " ++ u ++ ": " ++ e)], ("", ""))
  | .badJSON e => (evs ++ [Ev.log (ndbName ++ ": " ++ u ++ ": " ++ e)], ("", ""))
  | .ok m =>
    if m.error ≠ "" then
      (evs ++ [Ev.log (ndbName ++ ": " ++ u ++ ": " ++ m.error)], ("", ""))
    else if m.total = 0 ∨ m.results.length = 0 then
      (evs ++ [Ev.log (ndbName ++ ": " ++ u ++ ": The request returned zero results")],
       ("", ""))
    else
      (evs, ((m.results.headD {}).networkCIDR, (m.results.headD {}).orgID))

/-- `apiOrgInfoQuery` (lines 407–446): POST to the org-info endpoint and
return the first result's AS numbers.  The zero-result check reads
`m.Total == 0 || len(m.Results[0].ASNs) == 0`: when `total` is non-zero
it indexes `m.Results[0]` **without** checking that `results` is
non-empty, so a decoded body with non-zero `total` and an empty
`results` array raises a Go index-out-of-range panic, modelled as
`none`. -/
def apiOrgInfoQuery (env : ApiEnv) (id : String) : List Ev × Option (List Int) :=
  let u := getAPIOrgInfoURL
  let evs : List Ev := [Ev.rateWait, Ev.setActive, Ev.fetch u]
  match env.orgInfo id with
  | .transport e => (evs ++ [Ev.log (ndbName ++ ": " ++ u ++ ": " ++ e)], some [])
  | .badJSON e => (evs ++ [Ev.log (ndbName ++ ": " ++ u ++ ": " ++ e)], some [])
  | .ok m =>
    if m.error ≠ "" then
      (evs ++ [Ev.log (ndbName ++ ": " ++ u ++ ": " ++ m.error)], some [])
    else if m.total = 0 then
      (evs ++ [Ev.log (ndbName ++ ": " ++ u ++ ": The request returned zero results")],
       some [])
    else
      match m.results with
      | [] => (evs, none)  -- Go: panic evaluating `len(m.Results[0].ASNs)`
      | r0 :: _ =>
        if r0.asns.length = 0 then
          (evs ++ [Ev.log (ndbName ++ ": " ++ u ++ ": The request returned zero results")],
           some [])
        else (evs, some r0.asns)

/-- `apiNetblocksQuery` (lines 507–551): POST to the netblocks endpoint
and insert every result's CIDR into a fresh set (empty on failure). -/
def apiNetblocksQuery (env : ApiEnv) (asn : Int) : List Ev × StrSet :=
  let u := getAPINetblocksURL
  let evs : List Ev := [Ev.rateWait, Ev.setActive, Ev.fetch u]
  match env.netblocks asn with
  | .transport e => (evs ++ [Ev.log (ndbName ++ ": " ++ u ++ ": " ++ e)], StrSet.empty)
  | .badJSON e => (evs ++ [Ev.log (ndbName ++ ": " ++ u ++ ": " ++ e)], StrSet.empty)
  | .ok m =>
    if m.error ≠ "" then
      (evs ++ [Ev.log (ndbName ++ ": " ++ u ++ ": " ++ m.error)], StrSet.empty)
    else if m.total = 0 ∨ m.results.length = 0 then
      (evs ++ [Ev.log (ndbName ++ ": " ++ u ++ ": The request returned zero results")],
       StrSet.empty)
    else
      (evs, m.results.foldl (fun s b => StrSet.insert s b.cidr) StrSet.empty)

/-- `apiASNInfoQuery` (lines 452–501): POST to the as-info endpoint and
build the partial record from the first result (`none` on failure,
Go `nil`). -/
def apiASNInfoQuery (env : ApiEnv) (asn : Int) : List Ev × Option ASNRequest :=
  let u := getAPIASNInfoURL
  let evs : List Ev := [Ev.rateWait, Ev.setActive, Ev.fetch u]
  match env.asInfo asn with
  | .transport e => (evs ++ [Ev.log (ndbName ++ ": " ++ u ++ ": " ++ e)], none)
  | .badJSON e => (evs ++ [Ev.log (ndbName ++ ": " ++ u ++ ": " ++ e)], none)
  | .ok m =>
    if m.error ≠ "" then
      (evs ++ [Ev.log (ndbName ++ ": " ++ u ++ ": " ++ m.error)], none)
    else if m.total = 0 ∨ m.results.length = 0 then
      (evs ++ [Ev.log (ndbName ++ ": " ++ u ++ ": The request returned zero results")],
       none)
    else
      let r0 := m.results.headD {}
      (evs, some { ASN := r0.asn, CC := r0.countryCode,
                   Description := r0.description ++ ", " ++ r0.countryCode,
                   Tag := sourceTypeAPI, Source := ndbName })

/-- Lines 324–355 of `executeAPIASNQuery`, once the netblock set is
fixed (it is non-empty on every path reaching this point, so the Go
`netblocks.Slice()[0]` index is in range and is embedded as `headD`):
select the published CIDR, query the as-info endpoint, and publish. -/
def executeAPIASNQueryTail (env : ApiEnv) (asn : Int) (addr : String)
    (nbs : StrSet) (evs : List Ev) : List Ev × Outcome :=
  let p1 := if addr ≠ "" then scanContains nbs (parseIPv4 addr) else ""
  -- `if prefix == "" { prefix = netblocks.Slice()[0] }`
  let p2 := if p1 = "" then nbs.headD "" else p1
  let evs := evs ++ [Ev.rateWait, Ev.setActive]
  let t := apiASNInfoQuery env asn
  match t.2 with
  | none =>
    (evs ++ t.1 ++
      [Ev.log (ndbName ++ ": " ++ toString asn ++ ": Failed to obtain ASN information")],
     .failed)
  | some req0 =>
    let req1 := if addr ≠ "" then { req0 with Address := addr } else req0
    let req := { req1 with pfx := p2, Netblocks := nbs }
    (evs ++ t.1 ++ [Ev.newASN req], .published req)

/-- `executeAPIASNQuery` (lines 304–355): a `nil` netblock set becomes
a fresh empty set; an empty set is filled from the netblocks endpoint
and the attempt fails if it is still empty; then the tail runs. -/
def executeAPIASNQuery (env : ApiEnv) (asn : Int) (addr : String)
    (netblocks0 : Option StrSet) : List Ev × Outcome :=
  let nbs := netblocks0.getD StrSet.empty
  if nbs.length = 0 then
    let q := apiNetblocksQuery env asn
    let nbs := StrSet.union nbs q.2
    if nbs.length = 0 then
      (q.1 ++
        [Ev.log (ndbName ++ ": " ++ toString asn ++
          ": Failed to obtain netblocks associated with the ASN")],
       .failed)
    else executeAPIASNQueryTail env asn addr nbs q.1
  else executeAPIASNQueryTail env asn addr nbs []

/-- The candidate loop of `executeAPIASNAddrQuery` (lines 275–293):
rate-limit, query the netblocks of the candidate, log when that set is
empty, and `break loop` with `asn = a` at the first candidate one of
whose blocks contains `ip`.  Returns the events, the selected AS number
(`0`, the Go zero value of `var asn int`, when no candidate matched)
and the last queried netblock set. -/
def addrLoop (env : ApiEnv) (ip : Option Nat) (cidrs : StrSet) :
    List Int → List Ev × Int × StrSet
  | [] => ([], 0, cidrs)
  | a :: rest =>
    let q := apiNetblocksQuery env a
    let evs := Ev.rateWait :: q.1 ++
      (if q.2.length = 0 then
        [Ev.log (ndbName ++ ": " ++ toString a ++
          ": Failed to obtain netblocks associated with the ASN")]
       else [])
    if q.2.any (fun c =>
        match parseCIDR c, ip with
        | some b, some i => cidrContains b i
        | _, _ => false) then
      (evs, a, q.2)
    else
      let t := addrLoop env ip q.2 rest
      (evs ++ t.1, t.2.1, t.2.2)

/-- `executeAPIASNAddrQuery` (lines 247–302): ip-info for the
organisation id, org-info for the candidate AS numbers, the candidate
loop, the `asn == 0` no-match check, then `executeAPIASNQuery` with the
selected AS number and its netblocks. -/
def executeAPIASNAddrQuery (env : ApiEnv) (addr : String) : List Ev × Outcome :=
  let q1 := apiIPQuery env addr
  let id := q1.2.2
  if id = "" then
    (q1.1 ++
      [Ev.log (ndbName ++ ": " ++ addr ++ ": Failed to obtain IP address information")],
     .failed)
  else
    let evs := q1.1 ++ [Ev.rateWait, Ev.setActive]
    let q2 := apiOrgInfoQuery env id
    match q2.2 with
    | none => (evs ++ q2.1, .panicked)
    | some asns =>
      if asns.length = 0 then
        (evs ++ q2.1 ++
          [Ev.log (ndbName ++ ": " ++ id ++
            ": Failed to obtain ASNs associated with the organization")],
         .failed)
      else
        let ip := parseIPv4 addr
        let t := addrLoop env ip StrSet.empty asns
        let evs := evs ++ q2.1 ++ t.1
        if t.2.1 = 0 then
          (evs ++
            [Ev.log (ndbName ++ ": " ++ addr ++
              ": Failed to obtain the ASN associated with the IP address")],
           .failed)
        else
          let r := executeAPIASNQuery env t.2.1 addr (some t.2.2)
          (evs ++ r.1, r.2)

/-- `OnASNRequest` (lines 88–113): reject a request with neither field
set, rate-limit, then dispatch on `hasAPIKey` and on whether an address
was supplied.  The event bus is modelled as present (the Go `bus == nil`
guard never fires when a bus is in the context). -/
def OnASNRequest (aenv : ApiEnv) (senv : ScrapeEnv) (hasAPIKey : Bool)
    (req : ASNRequest) : List Ev × Outcome :=
  if req.Address = "" ∧ req.ASN = 0 then ([], .rejected)
  else
    let t :=
      if hasAPIKey then
        if req.Address ≠ "" then executeAPIASNAddrQuery aenv req.Address
        else executeAPIASNQuery aenv req.ASN "" none
      else
        if req.Address ≠ "" then executeASNAddrQuery senv req.Address
        else executeASNQuery senv req.ASN "" StrSet.empty
    (Ev.rateWait :: t.1, t.2)

/-- Effects of the `healASInfo` orchestrator (db command, lines
1053–1094): a `db.InsertInfrastructure` call, a dispatch of an
`ASNRequest` to one data source, or a one-second `time.Sleep`. -/
inductive HealEv
  | insertInfra (asn : Int) (descr addr p source tag uuid : String)
  | dispatch (source : String) (addr : String)
  | sleep
deriving DecidableEq, Repr

/-- `db.InsertInfrastructure(r.ASN, r.Description, r.Address, r.Prefix,
r.Source, r.Tag, uuid)`. -/
def healInsert (uuid : String) (r : ASNRequest) : HealEv :=
  HealEv.insertInfra r.ASN r.Description r.Address r.pfx r.Source r.Tag uuid

/-- The poll loop `for cache.AddrSearch(a) == nil { time.Sleep(time.Second) }`
(lines 1084–1086).  `look k` is the cache content observed by the k-th
loop-condition check; `fuel` bounds how many checks we unfold.  The
result is the index of the first check that found an entry — the only
way out of the loop — or `none` when the cache was still empty at every
one of the `fuel` checks, i.e. the loop is still running. -/
def pollLoop (look : Nat → Option ASNRequest) : Nat → Nat → Option Nat
  | _, 0 => none
  | k, fuel + 1 => if (look k).isSome then some k else pollLoop look (k + 1) fuel

/-- One iteration of `healASInfo`'s innermost loop (lines 1074–1091) for
one address: `obs i` is the cache content returned by the i-th
`cache.AddrSearch(a)` call (`obs 0` the initial guard, `obs (k+1)` the
k-th loop-condition check, and the after-loop re-check is the next
call).  If the initial search hits, the cached record is inserted at
once — no dispatch, no sleep.  Otherwise every data source receives the
request, the poll loop runs (one sleep per failed check), and the
after-loop search inserts the record it finds. -/
def healAddr (obs : Nat → Option ASNRequest) (srcs : List String)
    (uuid addr : String) (fuel : Nat) : List HealEv :=
  match obs 0 with
  | some r => [healInsert uuid r]
  | none =>
    let ds := srcs.map (fun s => HealEv.dispatch s addr)
    match pollLoop (fun k => obs (k + 1)) 0 fuel with
    | none => ds ++ List.replicate fuel HealEv.sleep
    | some k =>
      ds ++ List.replicate k HealEv.sleep ++
        (match obs (k + 2) with
         | some r => [healInsert uuid r]
         | none => [])

theorem pubRecords_append (a b : List Ev) :
    pubRecords (a ++ b) = pubRecords a ++ pubRecords b := by
  induction a with
  | nil => rfl
  | cons e es ih => cases e <;> simp [pubRecords, ih]

theorem logMsgs_append (a b : List Ev) :
    logMsgs (a ++ b) = logMsgs a ++ logMsgs b := by
  induction a with
  | nil => rfl
  | cons e es ih => cases e <;> simp [logMsgs, ih]

theorem headD_mem {l : List String} (h : l ≠ []) : l.headD "" ∈ l := by
  cases l with
  | nil => exact absurd rfl h
  | cons x xs => simp [List.headD]

theorem head?getD_mem {l : List String} (h : l ≠ []) : (l.head?).getD "" ∈ l := by
  cases l with
  | nil => exact absurd rfl h
  | cons x xs => simp

/-- The scan picks `""` or a member of the scanned set. -/
theorem scanContains_mem (nbs : List String) (ip : Option Nat) :
    scanContains nbs ip = "" ∨ scanContains nbs ip ∈ nbs := by
  induction nbs with
  | nil => exact Or.inl rfl
  | cons c rest ih =>
    simp only [scanContains]
    rcases hc : parseCIDR c with _ | b <;> rcases hip : ip with _ | i
    · rcases ih with h | h <;> simp [hip] at h ⊢ <;> simp [h]
    · rcases ih with h | h <;> simp [hip] at h ⊢ <;> simp [h]
    · rcases ih with h | h <;> simp [hip] at h ⊢ <;> simp [h]
    · by_cases hcon : cidrContains b i
      · simp [hcon]
      · rcases ih with h | h <;> simp [hip] at h ⊢ <;> simp [hcon, h]

/-- When some member of the set is a valid CIDR containing `i`, the
scan returns a member of the set that is a valid CIDR containing `i`. -/
theorem scanContains_finds (nbs : List String) (i : Nat)
    (h : ∃ C ∈ nbs, ∃ b, parseCIDR C = some b ∧ cidrContains b i) :
    scanContains nbs (some i) ∈ nbs ∧
      ∃ b', parseCIDR (scanContains nbs (some i)) = some b' ∧ cidrContains b' i := by
  induction nbs with
  | nil => simp at h
  | cons c rest ih =>
    simp only [scanContains]
    rcases hc : parseCIDR c with _ | b
    · have h' : ∃ C ∈ rest, ∃ b, parseCIDR C = some b ∧ cidrContains b i := by
        rcases h with ⟨C, hC, b, hb, hcon⟩
        rcases List.mem_cons.mp hC with hC | hC
        · rw [hC] at hb; rw [hc] at hb; cases hb
        · exact ⟨C, hC, b, hb, hcon⟩
      have := ih h'
      exact ⟨List.mem_cons_of_mem _ this.1, this.2⟩
    · by_cases hcon : cidrContains b i
      · simp only [hcon, if_true]
        exact ⟨List.mem_cons_self _ _, b, hc, hcon⟩
      · have h' : ∃ C ∈ rest, ∃ b, parseCIDR C = some b ∧ cidrContains b i := by
          rcases h with ⟨C, hC, b', hb, hcon'⟩
          rcases List.mem_cons.mp hC with hC | hC
          · rw [hC] at hb; rw [hc] at hb
            cases hb; exact absurd hcon' hcon
          · exact ⟨C, hC, b', hb, hcon'⟩
        have := ih h'
        simp only [hcon, if_false]
        exact ⟨List.mem_cons_of_mem _ this.1, this.2⟩

/-- A member that fails `net.ParseCIDR` is skipped by the scan. -/
theorem scanContains_skip (bad : String) (nbs : List String) (ip : Option Nat)
    (h : parseCIDR bad = none) :
    scanContains (bad :: nbs) ip = scanContains nbs ip := by
  simp only [scanContains, h]

theorem apiIPQuery_pure (env : ApiEnv) (a : String) :
    pubRecords (apiIPQuery env a).1 = [] := by
  unfold apiIPQuery
  rcases env.ipInfo a with e | e | m <;>
    simp only [pubRecords_append, pubRecords] <;>
    split_ifs <;> simp [pubRecords_append, pubRecords]

theorem apiOrgInfoQuery_pure (env : ApiEnv) (id : String) :
    pubRecords (apiOrgInfoQuery env id).1 = [] := by
  unfold apiOrgInfoQuery
  rcases env.orgInfo id with e | e | m
  · simp [pubRecords_append, pubRecords]
  · simp [pubRecords_append, pubRecords]
  · dsimp only
    split_ifs <;> try simp [pubRecords_append, pubRecords]
    rcases m.results with _ | ⟨r0, rest⟩
    · simp [pubRecords_append, pubRecords]
    · dsimp only
      split_ifs <;> simp [pubRecords_append, pubRecords]

theorem apiNetblocksQuery_pure (env : ApiEnv) (asn : Int) :
    pubRecords (apiNetblocksQuery env asn).1 = [] := by
  unfold apiNetblocksQuery
  rcases env.netblocks asn with e | e | m <;>
    simp only [pubRecords_append, pubRecords] <;>
    split_ifs <;> simp [pubRecords_append, pubRecords]

theorem apiASNInfoQuery_pure (env : ApiEnv) (asn : Int) :
    pubRecords (apiASNInfoQuery env asn).1 = [] := by
  unfold apiASNInfoQuery
  rcases env.asInfo asn with e | e | m <;>
    simp only [pubRecords_append, pubRecords] <;>
    split_ifs <;> simp [pubRecords_append, pubRecords]

theorem addrLoop_pure (env : ApiEnv) (ip : Option Nat) (cidrs : StrSet)
    (asns : List Int) : pubRecords (addrLoop env ip cidrs asns).1 = [] := by
  induction asns generalizing cidrs with
  | nil => rfl
  | cons a rest ih =>
    simp only [addrLoop]
    split_ifs <;>
      simp [pubRecords_append, pubRecords, apiNetblocksQuery_pure, ih]

/-- The publication discipline of one resolution attempt: the records
on the `NewASNTopic` are exactly the successful outcome's record, a
failure puts a message on the `LogTopic`, and a panic publishes no
record either. -/
def goodRun (t : List Ev × Outcome) : Prop :=
  (∀ r, t.2 = Outcome.published r → pubRecords t.1 = [r]) ∧
  (t.2 = Outcome.failed → pubRecords t.1 = [] ∧ logMsgs t.1 ≠ []) ∧
  (t.2 = Outcome.panicked → pubRecords t.1 = [])

theorem executeASNQuery_goodRun (env : ScrapeEnv) (asn : Int) (addr : String)
    (nbs : StrSet) : goodRun (executeASNQuery env asn addr nbs) := by
  unfold goodRun executeASNQuery
  rcases hf : env.fetch (getASNURL asn) with _ | page <;> simp only [hf]
  · simp [pubRecords, logMsgs]
  · rcases hn : page.asName with _ | nm <;> simp only [hn]
    · simp [pubRecords, logMsgs]
    · rcases hc : page.cc with _ | c0 <;> simp only [hc]
      · simp [pubRecords, logMsgs]
      · refine ⟨?_, ?_, ?_⟩
        · intro r h
          simp only [Outcome.published.injEq] at h
          rw [← h]
          simp [pubRecords]
        · intro h; simp at h
        · intro h; simp at h

theorem executeASNAddrQuery_goodRun (env : ScrapeEnv) (addr : String) :
    goodRun (executeASNAddrQuery env addr) := by
  unfold executeASNAddrQuery
  rcases hf : env.fetch (getIPURL addr) with _ | page <;> simp only [hf]
  · exact ⟨fun r h => by simp at h, fun h => by simp [pubRecords, logMsgs], fun h => by simp at h⟩
  · rcases hl : page.asnLink with _ | link <;> simp only [hl]
    · exact ⟨fun r h => by simp at h, fun h => by simp [pubRecords, logMsgs],
        fun h => by simp at h⟩
    · rcases hf2 : env.fetch (networksdbBaseURL ++ link) with _ | page2 <;> simp only [hf2]
      · exact ⟨fun r h => by simp at h, fun h => by simp [pubRecords, logMsgs],
          fun h => by simp at h⟩
      · rcases ha : page2.asnStr with _ | a <;> simp only [ha]
        · exact ⟨fun r h => by simp at h, fun h => by simp [pubRecords, logMsgs],
            fun h => by simp at h⟩
        · rcases hat : atoi (trimStr a) with _ | asn <;> simp only [hat]
          · exact ⟨fun r h => by simp at h, fun h => by simp [pubRecords, logMsgs],
              fun h => by simp at h⟩
          · have hg := executeASNQuery_goodRun env asn addr
              (page2.cidrs.foldl (fun s m => StrSet.insert s (trimStr m)) StrSet.empty)
            rcases hg with ⟨hp, hfl, hpk⟩
            refine ⟨?_, ?_, ?_⟩
            · intro r h
              simp only at h
              simp [pubRecords_append, pubRecords, hp r h]
            · intro h
              simp only at h
              rcases hfl h with ⟨h1, h2⟩
              constructor
              · simp [pubRecords_append, pubRecords, h1]
              · simp [logMsgs_append, logMsgs, h2]
            · intro h
              simp only at h
              simp [pubRecords_append, pubRecords, hpk h]

theorem executeAPIASNQueryTail_goodRun (env : ApiEnv) (asn : Int) (addr : String)
    (nbs : StrSet) (evs0 : List Ev) (h0 : pubRecords evs0 = []) :
    goodRun (executeAPIASNQueryTail env asn addr nbs evs0) := by
  unfold goodRun executeAPIASNQueryTail
  rcases hai : (apiASNInfoQuery env asn).2 with _ | req0 <;> simp only [hai]
  · refine ⟨fun r h => by simp at h, fun h => ?_, fun h => by simp at h⟩
    constructor
    · simp [pubRecords_append, pubRecords, h0, apiASNInfoQuery_pure]
    · simp [logMsgs_append, logMsgs]
  · refine ⟨fun r h => ?_, fun h => by simp at h, fun h => by simp at h⟩
    simp only [Outcome.published.injEq] at h
    rw [← h]
    simp [pubRecords_append, pubRecords, h0, apiASNInfoQuery_pure]

theorem executeAPIASNQueryTail_published (env : ApiEnv) (asn : Int) (addr : String)
    (nbs : StrSet) (evs0 : List Ev) (r : ASNRequest)
    (h : (executeAPIASNQueryTail env asn addr nbs evs0).2 = Outcome.published r) :
    r.Netblocks = nbs ∧ (nbs ≠ [] → r.pfx ∈ nbs) := by
  unfold executeAPIASNQueryTail at h
  rcases hai : (apiASNInfoQuery env asn).2 with _ | req0 <;> simp only [hai] at h
  · simp at h
  · simp only [Outcome.published.injEq] at h
    rw [← h]
    refine ⟨rfl, fun hne => ?_⟩
    dsimp only
    by_cases hA : addr = ""
    · simp only [hA, ne_eq, not_true_eq_false, if_false, if_pos rfl]
      exact headD_mem hne
    · simp only [ne_eq, hA, not_false_eq_true, if_true]
      rcases scanContains_mem nbs (parseIPv4 addr) with hs | hs
      · simp only [hs, if_pos rfl]
        exact headD_mem hne
      · split_ifs with h1
        · exact headD_mem hne
        · exact hs

theorem executeAPIASNQuery_goodRun (env : ApiEnv) (asn : Int) (addr : String)
    (netblocks0 : Option StrSet) :
    goodRun (executeAPIASNQuery env asn addr netblocks0) := by
  unfold executeAPIASNQuery
  dsimp only
  split_ifs with h1 h2
  · refine ⟨fun r h => by simp at h, fun h => ?_, fun h => by simp at h⟩
    constructor
    · simp [pubRecords_append, pubRecords, apiNetblocksQuery_pure]
    · simp [logMsgs_append, logMsgs]
  · exact executeAPIASNQueryTail_goodRun env asn addr _ _ (apiNetblocksQuery_pure env asn)
  · exact executeAPIASNQueryTail_goodRun env asn addr _ _ rfl

theorem executeAPIASNQuery_published (env : ApiEnv) (asn : Int) (addr : String)
    (netblocks0 : Option StrSet) (r : ASNRequest)
    (h : (executeAPIASNQuery env asn addr netblocks0).2 = Outcome.published r) :
    r.Netblocks ≠ [] ∧ r.pfx ∈ r.Netblocks := by
  unfold executeAPIASNQuery at h
  dsimp only at h
  by_cases h1 : List.length (netblocks0.getD StrSet.empty) = 0
  · rw [if_pos h1] at h
    by_cases h2 : List.length (StrSet.union (netblocks0.getD StrSet.empty)
        (apiNetblocksQuery env asn).2) = 0
    · rw [if_pos h2] at h
      simp at h
    · rw [if_neg h2] at h
      have hne : StrSet.union (netblocks0.getD StrSet.empty)
          (apiNetblocksQuery env asn).2 ≠ [] := by
        intro hz
        exact h2 (by rw [hz]; rfl)
      have hsh := executeAPIASNQueryTail_published env asn addr _ _ r h
      rw [hsh.1]
      exact ⟨hne, hsh.2 hne⟩
  · rw [if_neg h1] at h
    have hne : netblocks0.getD StrSet.empty ≠ [] := by
      intro hz
      exact h1 (by rw [hz]; rfl)
    have hsh := executeAPIASNQueryTail_published env asn addr _ _ r h
    rw [hsh.1]
    exact ⟨hne, hsh.2 hne⟩

theorem executeAPIASNAddrQuery_goodRun (env : ApiEnv) (addr : String) :
    goodRun (executeAPIASNAddrQuery env addr) := by
  unfold executeAPIASNAddrQuery
  dsimp only
  by_cases hid : (apiIPQuery env addr).2.2 = ""
  · rw [if_pos hid]
    refine ⟨fun r h => by simp at h, fun h => ?_, fun h => by simp at h⟩
    constructor
    · simp [pubRecords_append, pubRecords, apiIPQuery_pure]
    · simp [logMsgs_append, logMsgs]
  · rw [if_neg hid]
    rcases ho : (apiOrgInfoQuery env (apiIPQuery env addr).2.2).2 with _ | asns <;>
      simp only [ho]
    · refine ⟨fun r h => by simp at h, fun h => by simp at h, fun h => ?_⟩
      simp [pubRecords_append, pubRecords, apiIPQuery_pure, apiOrgInfoQuery_pure]
    · by_cases hlen : List.length asns = 0
    
      · rw [if_pos hlen]
        refine ⟨fun r h => by simp at h, fun h => ?_, fun h => by simp at h⟩
        constructor
        · simp [pubRecords_append, pubRecords, apiIPQuery_pure, apiOrgInfoQuery_pure]
        · simp [logMsgs_append, logMsgs]
      · rw [if_neg hlen]
        by_cases hz :
            (addrLoop env (parseIPv4 addr) StrSet.empty asns).2.1 = 0
        · rw [if_pos hz]
          refine ⟨fun r h => by simp at h, fun h => ?_, fun h => by simp at h⟩
          constructor
          · simp [pubRecords_append, pubRecords, apiIPQuery_pure, apiOrgInfoQuery_pure,
              addrLoop_pure]
          · simp [logMsgs_append, logMsgs]
        · rw [if_neg hz]
          have hg := executeAPIASNQuery_goodRun env
            (addrLoop env (parseIPv4 addr) StrSet.empty asns).2.1 addr
            (some (addrLoop env (parseIPv4 addr) StrSet.empty asns).2.2)
          rcases hg with ⟨hp, hfl, hpk⟩
          refine ⟨?_, ?_, ?_⟩
          · intro r h
            simp only at h
            simp [pubRecords_append, pubRecords, apiIPQuery_pure, apiOrgInfoQuery_pure,
              addrLoop_pure, hp r h]
          · intro h
            simp only at h
            rcases hfl h with ⟨h1, h2⟩
            constructor
            · simp [pubRecords_append, pubRecords, apiIPQuery_pure, apiOrgInfoQuery_pure,
                addrLoop_pure, h1]
            · simp [logMsgs_append, logMsgs, h2]
          · intro h
            simp only at h
            simp [pubRecords_append, pubRecords, apiIPQuery_pure, apiOrgInfoQuery_pure,
              addrLoop_pure, hpk h]

/-- The candidate loop's inner scan as a predicate: does candidate `a`'s
netblock set (as returned by the netblocks endpoint) contain `ip`? -/
def candHit (env : ApiEnv) (ip : Option Nat) (a : Int) : Bool :=
  (apiNetblocksQuery env a).2.any (fun c =>
    match parseCIDR c, ip with
    | some b, some i => cidrContains b i
    | _, _ => false)

/-- The candidate loop selects exactly the first candidate, in list
order, whose netblock set contains the address (`0`, the sentinel, when
none does), and keeps that candidate's netblock set. -/
theorem addrLoop_sel (env : ApiEnv) (ip : Option Nat) (asns : List Int) :
    ∀ cidrs : StrSet,
      (addrLoop env ip cidrs asns).2.1 = ((asns.find? (candHit env ip)).getD 0) ∧
      (∀ a, asns.find? (candHit env ip) = some a →
        (addrLoop env ip cidrs asns).2.2 = (apiNetblocksQuery env a).2) := by
  induction asns with
  | nil =>
    intro cidrs
    exact ⟨rfl, by intro a h; simp at h⟩
  | cons x rest ih =>
    intro cidrs
    simp only [addrLoop]
    by_cases hx : candHit env ip x
    · unfold candHit at hx
      rw [if_pos hx, List.find?_cons_of_pos _ (by unfold candHit; exact hx)]
      refine ⟨rfl, ?_⟩
      intro a ha
      simp only [Option.some.injEq] at ha
      rw [← ha]
    · unfold candHit at hx
      rw [if_neg hx, List.find?_cons_of_neg _ (by unfold candHit; exact hx)]
      exact ih (apiNetblocksQuery env x).2

theorem pollLoop_exit_isSome (look : Nat → Option ASNRequest) :
    ∀ fuel j k, pollLoop look j fuel = some k → (look k).isSome := by
  intro fuel
  induction fuel with
  | zero => intro j k h; simp [pollLoop] at h
  | succ f ih =>
    intro j k h
    simp only [pollLoop] at h
    split_ifs at h with hj
    · cases h; exact hj
    · exact ih (j + 1) k h

theorem pollLoop_never_exits (look : Nat → Option ASNRequest)
    (hnone : ∀ k, look k = none) : ∀ fuel j, pollLoop look j fuel = none := by
  intro fuel
  induction fuel with
  | zero => intro j; rfl
  | succ f ih =>
    intro j
    simp only [pollLoop, hnone j, Option.isSome_none, Bool.false_eq_true, if_false]
    exact ih (j + 1)

theorem executeASNQuery_published_mem (env : ScrapeEnv) (asn : Int) (addr : String)
    (nbs : StrSet) (r : ASNRequest)
    (h : (executeASNQuery env asn addr nbs).2 = Outcome.published r) :
    r.Netblocks ≠ [] → r.pfx ∈ r.Netblocks := by
  intro hne
  unfold executeASNQuery at h
  rcases hf : env.fetch (getASNURL asn) with _ | page <;> simp only [hf] at h
  · simp at h
  · rcases hn : page.asName with _ | nm <;> simp only [hn] at h
    · simp at h
    · rcases hc : page.cc with _ | c0 <;> simp only [hc] at h
      · simp at h
      · simp only [Outcome.published.injEq] at h
        rw [← h] at hne ⊢
        dsimp only at hne ⊢
        by_cases hcond : (if addr ≠ "" then
            scanContains (page.cidrs.foldl (fun s m => StrSet.insert s (trimStr m)) nbs)
              (parseIPv4 addr)
          else "") = "" ∧
            0 < (page.cidrs.foldl (fun s m => StrSet.insert s (trimStr m)) nbs).length
        · rw [if_pos hcond]
          exact headD_mem hne
        · rw [if_neg hcond]
          have hlen : 0 < (page.cidrs.foldl
              (fun s m => StrSet.insert s (trimStr m)) nbs).length := by
            rcases hx : page.cidrs.foldl (fun s m => StrSet.insert s (trimStr m)) nbs with
              _ | ⟨y, ys⟩
            · exact absurd hx hne
            · simp
          by_cases hA : addr = ""
          · exact absurd ⟨by simp [hA], hlen⟩ hcond
          · simp only [ne_eq, hA, not_false_eq_true, if_true] at hcond ⊢
            rcases scanContains_mem
                (page.cidrs.foldl (fun s m => StrSet.insert s (trimStr m)) nbs)
                (parseIPv4 addr) with hs | hs
            · exact absurd ⟨hs, hlen⟩ hcond
            · exact hs

/-- A scrape environment whose every fetch is a transport error. -/
def senvDown : ScrapeEnv := { fetch := fun _ => none }

/-- An API environment whose every call is a transport error. -/
def aenvDown : ApiEnv :=
  { ipInfo := fun _ => ApiResp.transport "e"
  , orgInfo := fun _ => ApiResp.transport "e"
  , netblocks := fun _ => ApiResp.transport "e"
  , asInfo := fun _ => ApiResp.transport "e" }

/-- A scrape environment whose AS page carries an AS name and a country
code but lists no CIDR blocks. -/
def senvNoCIDR : ScrapeEnv :=
  { fetch := fun _ => some { asName := some "Example Net", cc := some "US" } }

/-- A scrape environment whose AS page carries a name, a country code
and one CIDR block. -/
def senvOneCIDR : ScrapeEnv :=
  { fetch := fun _ => some { asName := some "Example Net", cc := some "US", cidrs := ["198.51.100.0/24"] } }

/-- The spec §8 API scenario: ip-info yields organisation `org-1`,
org-info yields candidates `[64500, 64501]`, the netblocks of `64500`
are `"198.51.100.0/24"`, and as-info names `64500` "Example Net" / US. -/
def envScenario : ApiEnv :=
  { ipInfo := fun a =>
      if a = "198.51.100.7" then
        ApiResp.ok { total := 1, results := [{ orgID := "org-1", networkCIDR := "198.51.100.0/24" }] }
      else ApiResp.transport "e"
  , orgInfo := fun i =>
      if i = "org-1" then ApiResp.ok { total := 1, results := [{ asns := [64500, 64501] }] }
      else ApiResp.transport "e"
  , netblocks := fun a =>
      if a = 64500 then
        ApiResp.ok { total := 1, results := [{ cidr := "198.51.100.0/24" }] }
      else ApiResp.transport "e"
  , asInfo := fun a =>
      if a = 64500 then
        ApiResp.ok { total := 1, results := [{ asn := 64500, asName := "Example Net", description := "Example Net", countryCode := "US", country := "United States" }] }
      else ApiResp.transport "e" }

/-- An API environment whose org-info endpoint answers with a decoded
body whose `total` is non-zero while its `results` array is empty. -/
def envOrgEmpty : ApiEnv :=
  { ipInfo := fun _ =>
      ApiResp.ok { total := 1, results := [{ orgID := "org-1" }] }
  , orgInfo := fun _ => ApiResp.ok { total := 1, results := [] }
  , netblocks := fun _ => ApiResp.transport "e"
  , asInfo := fun _ => ApiResp.transport "e" }

/-- An API environment whose only candidate AS number is 0 and whose
netblocks for it contain the queried address. -/
def envZeroCand : ApiEnv :=
  { ipInfo := fun _ =>
      ApiResp.ok { total := 1, results := [{ orgID := "org-1" }] }
  , orgInfo := fun _ => ApiResp.ok { total := 1, results := [{ asns := [0] }] }
  , netblocks := fun _ =>
      ApiResp.ok { total := 1, results := [{ cidr := "198.51.100.0/24" }] }
  , asInfo := fun _ =>
      ApiResp.ok { total := 1, results := [{ asn := 0, countryCode := "US", description := "Zero" }] } }

/-- The record the spec §8 API scenario expects to be published. -/
def scenarioRecord : ASNRequest :=
  { Address := "198.51.100.7", ASN := 64500, pfx := "198.51.100.0/24", CC := "US",
    Description := "Example Net, US", Netblocks := ["198.51.100.0/24"],
    Tag := sourceTypeAPI, Source := ndbName }

/-- The record published by the scrape variant in `senvOneCIDR`. -/
def recScrapeW : ASNRequest :=
  { Address := "198.51.100.7", ASN := 64500, pfx := "198.51.100.0/24", CC := "US",
    Description := "Example Net, US", Netblocks := ["198.51.100.0/24"],
    Tag := sourceTypeScrape, Source := ndbName }

/-- C1 (counterexample): the scrape-mode `executeASNQuery` publishes a
record even when its netblock set is empty — an AS page with a name and
a country code but no CIDR rows yields a published record whose
`netblocks` is empty (and whose CIDR field is `""`), refuting "the
netblocks set is non-empty" for the scrape-mode publication. -/
theorem scrape_publishes_empty_netblocks_cex :
    (executeASNQuery senvNoCIDR 64500 "" StrSet.empty).2 = Outcome.published
      { Address := "", ASN := 64500, pfx := "", CC := "US",
        Description := "Example Net, US", Netblocks := [],
        Tag := sourceTypeScrape, Source := ndbName } := by decide

/-- C1 (amended): in every successfully published record the CIDR field
is a member of the netblock set whenever that set is non-empty; the
API-mode `executeAPIASNQuery` moreover never publishes a record with an
empty netblock set, while the scrape-mode `executeASNQuery` can (see
the counterexample). -/
theorem published_record_prefix_in_netblocks :
    (∀ (env : ScrapeEnv) (asn : Int) (addr : String) (nbs : StrSet) (r : ASNRequest),
      (executeASNQuery env asn addr nbs).2 = Outcome.published r →
      r.Netblocks ≠ [] → r.pfx ∈ r.Netblocks) ∧
    (∀ (env : ApiEnv) (asn : Int) (addr : String) (nbs0 : Option StrSet) (r : ASNRequest),
      (executeAPIASNQuery env asn addr nbs0).2 = Outcome.published r →
      r.Netblocks ≠ [] ∧ r.pfx ∈ r.Netblocks) := by
  constructor
  · intro env asn addr nbs r h
    exact executeASNQuery_published_mem env asn addr nbs r h
  · intro env asn addr nbs0 r h
    exact executeAPIASNQuery_published env asn addr nbs0 r h

/-- C1 (witness): both parts applied to concrete publishing runs. -/
theorem published_record_prefix_in_netblocks_witness :
    recScrapeW.pfx ∈ recScrapeW.Netblocks ∧
      scenarioRecord.Netblocks ≠ [] ∧ scenarioRecord.pfx ∈ scenarioRecord.Netblocks :=
  ⟨published_record_prefix_in_netblocks.1 senvOneCIDR 64500 "198.51.100.7"
      StrSet.empty recScrapeW (by decide) (by decide),
   published_record_prefix_in_netblocks.2 envScenario 64500 "198.51.100.7"
      (some ["198.51.100.0/24"]) scenarioRecord (by decide)⟩

/-- C2: `apiOrgInfoQuery`'s zero-result check evaluates
`len(m.Results[0].ASNs)` while only `m.Total` guards it, so a decoded
body with non-zero `total` and an empty `results` array indexes an
empty slice: a Go index-out-of-range panic (`none` in the embedding),
not the empty-list soft failure the claim states; the panic propagates
to `executeAPIASNAddrQuery`. -/
theorem apiOrgInfoQuery_panics_on_nonzero_total_empty_results :
    (apiOrgInfoQuery envOrgEmpty "org-1").2 = none ∧
    (executeAPIASNAddrQuery envOrgEmpty "198.51.100.7").2 = Outcome.panicked := by
  exact ⟨rfl, by decide⟩

/-- C5: the spec §8 API scenario — address `198.51.100.7`, org `org-1`,
candidates `[64500, 64501]`, netblocks of 64500 containing the address,
as-info naming it "Example Net"/US — publishes exactly one record with
asn 64500, CIDR `198.51.100.0/24`, description "Example Net, US" and
address `198.51.100.7`. -/
theorem api_scenario_publishes_expected_record :
    (executeAPIASNAddrQuery envScenario "198.51.100.7").2 =
        Outcome.published scenarioRecord ∧
      pubRecords (executeAPIASNAddrQuery envScenario "198.51.100.7").1 =
        [scenarioRecord] ∧
      scenarioRecord.ASN = 64500 ∧ scenarioRecord.pfx = "198.51.100.0/24" ∧
      scenarioRecord.Description = "Example Net, US" ∧
      scenarioRecord.Address = "198.51.100.7" := by
  exact ⟨by decide, by decide, rfl, rfl, rfl, rfl⟩

/-- C3: every resolution attempt that ends in a failure branch — in the
scrape or API variant, address-keyed or ASN-keyed — publishes a
diagnostic `LogTopic` message and no `NewASNTopic` record; and an
attempt that panics publishes no record either, so no partial record is
ever published. -/
theorem failed_attempt_logs_and_publishes_nothing :
    (∀ (env : ScrapeEnv) (addr : String),
      (executeASNAddrQuery env addr).2 = Outcome.failed →
      pubRecords (executeASNAddrQuery env addr).1 = [] ∧
        logMsgs (executeASNAddrQuery env addr).1 ≠ []) ∧
    (∀ (env : ScrapeEnv) (asn : Int) (addr : String) (nbs : StrSet),
      (executeASNQuery env asn addr nbs).2 = Outcome.failed →
      pubRecords (executeASNQuery env asn addr nbs).1 = [] ∧
        logMsgs (executeASNQuery env asn addr nbs).1 ≠ []) ∧
    (∀ (env : ApiEnv) (addr : String),
      (executeAPIASNAddrQuery env addr).2 = Outcome.failed →
      pubRecords (executeAPIASNAddrQuery env addr).1 = [] ∧
        logMsgs (executeAPIASNAddrQuery env addr).1 ≠ []) ∧
    (∀ (env : ApiEnv) (asn : Int) (addr : String) (nbs0 : Option StrSet),
      (executeAPIASNQuery env asn addr nbs0).2 = Outcome.failed →
      pubRecords (executeAPIASNQuery env asn addr nbs0).1 = [] ∧
        logMsgs (executeAPIASNQuery env asn addr nbs0).1 ≠ []) ∧
    (∀ (env : ApiEnv) (addr : String),
      (executeAPIASNAddrQuery env addr).2 = Outcome.panicked →
      pubRecords (executeAPIASNAddrQuery env addr).1 = []) := by
  refine ⟨?_, ?_, ?_, ?_, ?_⟩
  · intro env addr h
    exact (executeASNAddrQuery_goodRun env addr).2.1 h
  · intro env asn addr nbs h
    exact (executeASNQuery_goodRun env asn addr nbs).2.1 h
  · intro env addr h
    exact (executeAPIASNAddrQuery_goodRun env addr).2.1 h
  · intro env asn addr nbs0 h
    exact (executeAPIASNQuery_goodRun env asn addr nbs0).2.1 h
  · intro env addr h
    exact (executeAPIASNAddrQuery_goodRun env addr).2.2 h

/-- C3 (witness): a run whose every fetch fails ends failed, with a log
publication and no record publication. -/
theorem failed_attempt_logs_and_publishes_nothing_witness :
    pubRecords (executeASNAddrQuery senvDown "198.51.100.7").1 = [] ∧
      logMsgs (executeASNAddrQuery senvDown "198.51.100.7").1 ≠ [] :=
  failed_attempt_logs_and_publishes_nothing.1 senvDown "198.51.100.7" (by decide)

/-- C4 (counterexample): with candidate list `[0]` whose netblocks
contain the queried address, the first (only) matching candidate is AS
0; the claim as stated says it is selected, but the code's `asn == 0`
no-match sentinel makes the attempt fail with no publication. -/
theorem api_zero_candidate_not_selected_cex :
    (apiOrgInfoQuery envZeroCand "org-1").2 = some [0] ∧
      candHit envZeroCand (parseIPv4 "198.51.100.7") 0 = true ∧
      (executeAPIASNAddrQuery envZeroCand "198.51.100.7").2 = Outcome.failed ∧
      pubRecords (executeAPIASNAddrQuery envZeroCand "198.51.100.7").1 = [] := by
  decide

/-- C4 (amended): the candidate loop inspects the org-info candidates
in list order and selects exactly the first one whose netblock set
contains the queried address; when that first matching candidate is
non-zero the adapter continues with it (and with its netblock set), and
when no candidate matches the attempt fails — no arbitrary candidate is
selected.  (A matching candidate numbered 0 collides with the code's
no-match sentinel and also fails.) -/
theorem api_first_matching_candidate_selected :
    (∀ (env : ApiEnv) (ip : Option Nat) (cidrs : StrSet) (asns : List Int),
      (addrLoop env ip cidrs asns).2.1 = ((asns.find? (candHit env ip)).getD 0)) ∧
    (∀ (env : ApiEnv) (addr : String) (asns : List Int) (a : Int),
      (apiIPQuery env addr).2.2 ≠ "" →
      (apiOrgInfoQuery env (apiIPQuery env addr).2.2).2 = some asns →
      asns ≠ [] →
      asns.find? (candHit env (parseIPv4 addr)) = some a → a ≠ 0 →
      executeAPIASNAddrQuery env addr =
        ((apiIPQuery env addr).1 ++ [Ev.rateWait, Ev.setActive] ++
            (apiOrgInfoQuery env (apiIPQuery env addr).2.2).1 ++
            (addrLoop env (parseIPv4 addr) StrSet.empty asns).1 ++
            (executeAPIASNQuery env a addr (some (apiNetblocksQuery env a).2)).1,
          (executeAPIASNQuery env a addr (some (apiNetblocksQuery env a).2)).2)) ∧
    (∀ (env : ApiEnv) (addr : String) (asns : List Int),
      (apiIPQuery env addr).2.2 ≠ "" →
      (apiOrgInfoQuery env (apiIPQuery env addr).2.2).2 = some asns →
      asns ≠ [] →
      asns.find? (candHit env (parseIPv4 addr)) = none →
      (executeAPIASNAddrQuery env addr).2 = Outcome.failed) := by
  refine ⟨?_, ?_, ?_⟩
  · intro env ip cidrs asns
    exact (addrLoop_sel env ip asns cidrs).1
  · intro env addr asns a hid ho hne hfind ha0
    unfold executeAPIASNAddrQuery
    dsimp only
    rw [if_neg hid, ho]
    dsimp only
    rw [if_neg (by simpa [List.length_eq_zero] using hne)]
    have hsel := addrLoop_sel env (parseIPv4 addr) asns StrSet.empty
    have h1 : (addrLoop env (parseIPv4 addr) StrSet.empty asns).2.1 = a := by
      rw [hsel.1, hfind]
      rfl
    have h2 : (addrLoop env (parseIPv4 addr) StrSet.empty asns).2.2 =
        (apiNetblocksQuery env a).2 := hsel.2 a hfind
    rw [if_neg (by rw [h1]; exact ha0), h1, h2]
  · intro env addr asns hid ho hne hfind
    unfold executeAPIASNAddrQuery
    dsimp only
    rw [if_neg hid, ho]
    dsimp only
    rw [if_neg (by simpa [List.length_eq_zero] using hne)]
    have hsel := addrLoop_sel env (parseIPv4 addr) asns StrSet.empty
    have h1 : (addrLoop env (parseIPv4 addr) StrSet.empty asns).2.1 = 0 := by
      rw [hsel.1, hfind]
      rfl
    rw [if_pos h1]

/-- C4 (witness): the selection applied to the spec scenario, where the
first matching candidate is 64500. -/
theorem api_first_matching_candidate_selected_witness :
    executeAPIASNAddrQuery envScenario "198.51.100.7" =
      ((apiIPQuery envScenario "198.51.100.7").1 ++ [Ev.rateWait, Ev.setActive] ++
          (apiOrgInfoQuery envScenario
            (apiIPQuery envScenario "198.51.100.7").2.2).1 ++
          (addrLoop envScenario (parseIPv4 "198.51.100.7") StrSet.empty
            [64500, 64501]).1 ++
          (executeAPIASNQuery envScenario 64500 "198.51.100.7"
            (some (apiNetblocksQuery envScenario 64500).2)).1,
        (executeAPIASNQuery envScenario 64500 "198.51.100.7"
          (some (apiNetblocksQuery envScenario 64500).2)).2) :=
  api_first_matching_candidate_selected.2.1 envScenario "198.51.100.7" [64500, 64501]
    64500 (by decide) (by decide) (by decide) (by decide) (by decide)

/-- C6: when the initial cache search for an address hits, the
orchestrator inserts the cached ownership fact at once: no `ASNRequest`
is dispatched to any data source and the poll-sleep loop is never
entered. -/
theorem cached_address_resolved_without_dispatch :
    ∀ (obs : Nat → Option ASNRequest) (srcs : List String) (uuid addr : String)
      (fuel : Nat) (r : ASNRequest), obs 0 = some r →
      healAddr obs srcs uuid addr fuel = [healInsert uuid r] ∧
      (∀ s a, HealEv.dispatch s a ∉ healAddr obs srcs uuid addr fuel) ∧
      HealEv.sleep ∉ healAddr obs srcs uuid addr fuel := by
  intro obs srcs uuid addr fuel r h
  have he : healAddr obs srcs uuid addr fuel = [healInsert uuid r] := by
    unfold healAddr
    rw [h]
  refine ⟨he, ?_, ?_⟩
  · intro s a hm
    rw [he] at hm
    simp [healInsert] at hm
  · intro hm
    rw [he] at hm
    simp [healInsert] at hm

/-- C6 (witness): a pre-seeded cache entry is inserted immediately. -/
theorem cached_address_resolved_without_dispatch_witness :
    healAddr (fun _ => some scenarioRecord) [ndbName] "uuid1" "198.51.100.7" 3 =
      [healInsert "uuid1" scenarioRecord] :=
  (cached_address_resolved_without_dispatch (fun _ => some scenarioRecord) [ndbName]
    "uuid1" "198.51.100.7" 3 scenarioRecord rfl).1

/-- C7: the orchestrator's wait is an unbounded poll.  The only exit of
the loop is a cache hit at some check; while every check comes back
empty the loop never exits, and for every bound `fuel` an
everywhere-empty cache leaves the run still looping after `fuel`
one-second sleeps — there is no timeout, cancellation or alternative
exit. -/
theorem poll_loop_unbounded_no_timeout :
    (∀ (look : Nat → Option ASNRequest) (fuel j k : Nat),
      pollLoop look j fuel = some k → (look k).isSome) ∧
    (∀ (look : Nat → Option ASNRequest), (∀ k, look k = none) →
      ∀ fuel j, pollLoop look j fuel = none) ∧
    (∀ (obs : Nat → Option ASNRequest) (srcs : List String) (uuid addr : String),
      (∀ k, obs k = none) → ∀ fuel,
      healAddr obs srcs uuid addr fuel =
        srcs.map (fun s => HealEv.dispatch s addr) ++
          List.replicate fuel HealEv.sleep) := by
  refine ⟨?_, ?_, ?_⟩
  · intro look fuel j k h
    exact pollLoop_exit_isSome look fuel j k h
  · intro look h fuel j
    exact pollLoop_never_exits look h fuel j
  · intro obs srcs uuid addr h fuel
    unfold healAddr
    rw [h 0]
    dsimp only
    rw [pollLoop_never_exits (fun k => obs (k + 1)) (fun k => h (k + 1)) fuel 0]

/-- C7 (witness): an everywhere-empty cache keeps the poll unexited and
keeps the run asleep in the loop. -/
theorem poll_loop_unbounded_no_timeout_witness :
    pollLoop (fun _ => none) 0 7 = none ∧
      healAddr (fun _ => none) [ndbName] "uuid1" "198.51.100.7" 4 =
        [HealEv.dispatch ndbName "198.51.100.7"] ++
          List.replicate 4 HealEv.sleep :=
  ⟨poll_loop_unbounded_no_timeout.2.1 (fun _ => none) (fun _ => rfl) 7 0,
   poll_loop_unbounded_no_timeout.2.2 (fun _ => none) [ndbName] "uuid1" "198.51.100.7"
    (fun _ => rfl) 4⟩

/-- C8: a request with an empty address and ASN 0 is rejected by the
first guard of `OnASNRequest`: no rate-limiter wait, no fetch and no
publication of any kind happen (the event list is empty). -/
theorem invalid_request_rejected_without_dispatch :
    ∀ (aenv : ApiEnv) (senv : ScrapeEnv) (hasKey : Bool) (req : ASNRequest),
      req.Address = "" → req.ASN = 0 →
      OnASNRequest aenv senv hasKey req = ([], Outcome.rejected) := by
  intro aenv senv hasKey req h1 h2
  unfold OnASNRequest
  rw [if_pos ⟨h1, h2⟩]

/-- C8 (witness): the zero-valued request is rejected with no events. -/
theorem invalid_request_rejected_without_dispatch_witness :
    OnASNRequest aenvDown senvDown true ({} : ASNRequest) = ([], Outcome.rejected) :=
  invalid_request_rejected_without_dispatch aenvDown senvDown true {} rfl rfl

/-- C9: whenever the scanned set holds some valid CIDR containing the
(parseable) address, the shared CIDR scan of `executeASNQuery` and
`executeAPIASNQuery` returns a member of the set whose block contains
the address — not necessarily that same CIDR — and a malformed member
is skipped rather than aborting the scan. -/
theorem cidr_scan_finds_containing_member_and_skips_malformed :
    (∀ (nbs : List String) (A C : String) (i : Nat) (b : Nat × Nat),
      parseIPv4 A = some i → C ∈ nbs → parseCIDR C = some b → cidrContains b i →
      scanContains nbs (parseIPv4 A) ∈ nbs ∧
        ∃ b', parseCIDR (scanContains nbs (parseIPv4 A)) = some b' ∧
          cidrContains b' i) ∧
    (∀ (bad : String) (nbs : List String) (ip : Option Nat), parseCIDR bad = none →
      scanContains (bad :: nbs) ip = scanContains nbs ip) := by
  constructor
  · intro nbs A C i b hA hC hb hcon
    rw [hA]
    exact scanContains_finds nbs i ⟨C, hC, b, hb, hcon⟩
  · intro bad nbs ip h
    exact scanContains_skip bad nbs ip h

/-- C9 (witness): over a set holding a malformed string and a valid
block containing `198.51.100.7`, the scan returns a containing member. -/
theorem cidr_scan_finds_containing_member_witness :
    scanContains ["bogus", "198.51.100.0/24"] (parseIPv4 "198.51.100.7") ∈
        ["bogus", "198.51.100.0/24"] ∧
      ∃ b', parseCIDR
          (scanContains ["bogus", "198.51.100.0/24"] (parseIPv4 "198.51.100.7")) =
          some b' ∧ cidrContains b' 3325256711 :=
  cidr_scan_finds_containing_member_and_skips_malformed.1
    ["bogus", "198.51.100.0/24"] "198.51.100.7" "198.51.100.0/24" 3325256711
    (3325256704, 24) (by decide) (by decide) (by decide) (by decide)

/-- C10: a request carrying both a non-empty address and a non-zero AS
number is resolved by address in both modes: the dispatched path
depends only on the address, and the supplied AS number plays no part. -/
theorem address_takes_precedence_over_asn :
    ∀ (aenv : ApiEnv) (senv : ScrapeEnv) (hasKey : Bool) (req : ASNRequest),
      req.Address ≠ "" → req.ASN ≠ 0 →
      OnASNRequest aenv senv hasKey req =
        (Ev.rateWait ::
            (if hasKey then executeAPIASNAddrQuery aenv req.Address
             else executeASNAddrQuery senv req.Address).1,
          (if hasKey then executeAPIASNAddrQuery aenv req.Address
           else executeASNAddrQuery senv req.Address).2) := by
  intro aenv senv hasKey req hA hN
  unfold OnASNRequest
  rw [if_neg (by intro hand; exact hA hand.1)]
  cases hasKey <;> simp [hA]

/-- C10 (witness): a request with both fields set takes the address
path; the given ASN 64501 is not consulted. -/
theorem address_takes_precedence_over_asn_witness :
    OnASNRequest aenvDown senvDown true
        { Address := "198.51.100.7", ASN := 64501 } =
      (Ev.rateWait :: (executeAPIASNAddrQuery aenvDown "198.51.100.7").1,
        (executeAPIASNAddrQuery aenvDown "198.51.100.7").2) :=
  address_takes_precedence_over_asn aenvDown senvDown true
    { Address := "198.51.100.7", ASN := 64501 } (by decide) (by decide)
